import Mathlib

/-!
Verification development of the sharpie ship-design calculator.

A shallow embedding of the `sharpie` Rust crate (a SpringSharp-style
warship design calculator) and proofs about its arithmetic.  Rust `f64`
values are modelled as real numbers: `f64::powf` becomes `Real.rpow`,
`f64::sqrt` becomes `Real.sqrt`, `cos`/`tan` become `Real.cos`/`Real.tan`,
and `f64::min`/`f64::max` become `min`/`max` on `ℝ`.  Rust `u32` fields
become `ℕ`, with explicit truncated/wrapping subtraction where the source
subtracts unsigned integers.  Each definition is a direct transcription of
the correspondingly named item in the Rust source (`src/hull.rs`,
`src/engine.rs`, `src/armor.rs`, `src/weapons.rs`, `src/lib.rs`).
-/

noncomputable section

open Real

namespace Sharpie

/-- Source `units.rs`: measurement system marker (`Units`). -/
inductive Units where
  | Imperial
  | Metric
  deriving DecidableEq

/-- Source `hull.rs`: `BowType` — bow shape, with ram length payload. -/
inductive BowType where
  | Ram (len : ℝ)
  | BulbStraight
  | BulbForward
  | Normal

/-- Source `hull.rs`: `BowType::ram_len` — length of the ram (0 for non-ram bows). -/
def BowType.ram_len : BowType → ℝ
  | .Ram len => len
  | _ => 0

/-- Source `hull.rs`: `SternType` — stern shape. -/
inductive SternType where
  | TransomSm
  | TransomLg
  | Cruiser
  | Round
  deriving DecidableEq

/-- Source `hull.rs`: `SternType::leff(lwl, bb, cs)`.  Divide-by-zero guard first:
`if cs == 0.0 { return 0.0 }`, then transom sterns add a beam/sharpness
bonus while all other sterns return `lwl`. -/
def SternType.leff (s : SternType) (lwl bb cs : ℝ) : ℝ :=
  if cs = 0 then 0
  else
    match s with
    | .TransomSm => bb * 0.5 / cs + lwl
    | .TransomLg => bb / cs + lwl
    | _ => lwl

/-- Source `hull.rs`: the `Hull` struct.  The private Rust fields `cb`, `d`,
`loa`, `lwl` (each an `Option<f64>`) are named `cbOpt`, `dOpt`, `loaOpt`,
`lwlOpt` here so the public accessor methods can keep their source names. -/
structure Hull where
  units : Units
  /-- private `cb: Option<f64>` — block coefficient, `None` if `d` is set. -/
  cbOpt : Option ℝ
  /-- private `d: Option<f64>` — normal displacement, `None` if `cb` is set. -/
  dOpt : Option ℝ
  /-- private `loa: Option<f64>` — overall length, `None` if `lwl` is set. -/
  loaOpt : Option ℝ
  /-- private `lwl: Option<f64>` — waterline length, `None` if `loa` is set. -/
  lwlOpt : Option ℝ
  b : ℝ
  bb : ℝ
  t : ℝ
  boxy : Bool
  bow_type : BowType
  stern_type : SternType
  stern_overhang : ℝ
  fc_len : ℝ
  fc_fwd : ℝ
  fc_aft : ℝ
  fd_len : ℝ
  fd_fwd : ℝ
  fd_aft : ℝ
  ad_fwd : ℝ
  ad_aft : ℝ
  qd_len : ℝ
  qd_fwd : ℝ
  qd_aft : ℝ
  bow_angle : ℝ

namespace Hull

/-- Source `hull.rs`: `impl Default for Hull`. -/
def default : Hull where
  units := .Imperial
  cbOpt := none
  dOpt := none
  lwlOpt := none
  loaOpt := none
  b := 0
  bb := 0
  t := 0
  boxy := false
  bow_type := .Normal
  stern_type := .Cruiser
  stern_overhang := 0
  fc_len := 0
  fc_fwd := 0
  fc_aft := 0
  fd_len := 0
  fd_fwd := 0
  fd_aft := 0
  ad_fwd := 0
  ad_aft := 0
  qd_len := 0
  qd_fwd := 0
  qd_aft := 0
  bow_angle := 0

/-- Source `Hull::FT3_PER_TON_SEA`: cubic feet of seawater per long ton. -/
def FT3_PER_TON_SEA : ℝ := 35.0

/-- Source `hull.rs`: `Hull::stem_len` — bow-angle length contribution, with the
`|bow_angle| >= 90` guard avoiding an infinite tangent. -/
def stem_len (h : Hull) : ℝ :=
  if 90 ≤ |h.bow_angle| then 0
  else h.fc_fwd * Real.tan (h.bow_angle * Real.pi / 180)

/-- Source `hull.rs`: `Hull::lwl` — waterline length: a stored value, or 0.0 when
neither length is stored, or derived from the stored overall length. -/
def lwl (h : Hull) : ℝ :=
  match h.lwlOpt, h.loaOpt with
  | none, none => 0
  | some len, _ => len
  | none, some loa =>
      loa - max (max h.bow_type.ram_len h.stem_len) 0 - max h.stern_overhang 0

/-- Source `hull.rs`: `Hull::loa` — overall length: a stored value, or 0.0 when
neither length is stored, or derived from the stored waterline length. -/
def loa (h : Hull) : ℝ :=
  match h.loaOpt, h.lwlOpt with
  | none, none => 0
  | some len, _ => len
  | none, some lwl =>
      lwl + max (max h.bow_type.ram_len h.stem_len) 0 + max h.stern_overhang 0

/-- Source `hull.rs`: `Hull::set_lwl` — store a waterline length, unset `loa`. -/
def set_lwl (h : Hull) (len : ℝ) : Hull :=
  { h with lwlOpt := some len, loaOpt := none }

/-- Source `hull.rs`: `Hull::set_loa` — store an overall length, unset `lwl`. -/
def set_loa (h : Hull) (len : ℝ) : Hull :=
  { h with loaOpt := some len, lwlOpt := none }

/-- Source `hull.rs`: `Hull::cb_calc(d, t)` — block coefficient for a given
displacement, 0.0 on zero volume, otherwise clamped into `[0, 1]` by
Rust's `.min(1.0).max(0.0)`. -/
def cb_calc (h : Hull) (d t : ℝ) : ℝ :=
  let volume := h.lwl * h.bb * t
  if volume = 0 then 0
  else max (min (d * FT3_PER_TON_SEA / volume) 1) 0

/-- Source `hull.rs`: `Hull::d_calc(cb)` — displacement for a given block
coefficient. -/
def d_calc (h : Hull) (cb : ℝ) : ℝ :=
  cb * h.lwl * h.bb * h.t / FT3_PER_TON_SEA

/-- Source `hull.rs`: `Hull::cb` — the stored block coefficient, or `cb_calc`
applied to the stored displacement.  When *both* private fields are
`None` the Rust accessors `cb()`/`d()` recurse into each other forever
(that state exists only before either setter has run); that unreachable
branch is given the junk value 0 here, and no theorem depends on it. -/
def cb (h : Hull) : ℝ :=
  match h.cbOpt with
  | some cb => cb
  | none =>
      match h.dOpt with
      | some d => h.cb_calc d h.t
      | none => 0

/-- Source `hull.rs`: `Hull::d` — stored displacement, or `d_calc` of `cb()`. -/
def d (h : Hull) : ℝ :=
  match h.dOpt with
  | some d => d
  | none => h.d_calc h.cb

/-- Source `hull.rs`: `Hull::set_cb` — store a block coefficient, unset `d`. -/
def set_cb (h : Hull) (cb : ℝ) : Hull :=
  { h with cbOpt := some cb, dOpt := none }

/-- Source `hull.rs`: `Hull::set_d` — store a displacement, unset `cb`. -/
def set_d (h : Hull) (d : ℝ) : Hull :=
  { h with dOpt := some d, cbOpt := none }

/-- Source `hull.rs`: `Hull::cs` — coefficient of sharpness, with the
`lwl() == 0.0` divide-by-zero guard returning 0.0. -/
def cs (h : Hull) : ℝ :=
  if h.lwl = 0 then 0
  else 0.4 * (h.bb / h.lwl * 6) ^ ((1 : ℝ) / 3) * Real.sqrt (h.cb / 0.52)

/-- Source `hull.rs`: `Hull::ws` — wetted surface (Mumford), with the `t == 0.0`
divide-by-zero guard returning 0.0. -/
def ws (h : Hull) : ℝ :=
  if h.t = 0 then 0
  else h.lwl * h.t * 1.7 + h.d * FT3_PER_TON_SEA / h.t

/-- Source `hull.rs`: `Hull::leff` — effective length, delegated to the stern
type. -/
def leff (h : Hull) : ℝ :=
  h.stern_type.leff h.lwl h.bb h.cs

end Hull

/-- Source `engine.rs`: the `BoilerType` bitflags (`Simple`, `Complex`,
`Turbine`), modelled as three independent flags. -/
structure BoilerType where
  simple : Bool
  complex : Bool
  turbine : Bool
  deriving DecidableEq

namespace BoilerType

/-- Source `engine.rs`: `BoilerType::is_simple`. -/
def is_simple (b : BoilerType) : Bool := b.simple

/-- Source `engine.rs`: `BoilerType::is_complex`. -/
def is_complex (b : BoilerType) : Bool := b.complex

/-- Source `engine.rs`: `BoilerType::is_reciprocating`. -/
def is_reciprocating (b : BoilerType) : Bool := b.is_simple || b.is_complex

/-- Rust release-mode wrapping `u32` subtraction `a - b` (for `b ≤ a + 2^32`),
used where the source subtracts year fields that may exceed the minuend.
(A debug build would panic on that underflow instead.) -/
def u32wsub (a b : ℕ) : ℕ := (a + 2 ^ 32 - b) % 2 ^ 32

/-- Source `engine.rs`: `BoilerType::bunker_factor(year)`. -/
def bunker_factor (b : BoilerType) (year : ℕ) : ℝ :=
  if b.is_reciprocating then 1 - (u32wsub 1910 year : ℝ) / 70
  else if year < 1898 then 1 - (u32wsub 1910 year : ℝ) / 70
  else if year < 1920 then 1 + ((year - 1910 : ℕ) : ℝ) / 20
  else if year < 1950 then 1.5 + ((year - 1920 : ℕ) : ℝ) / 60
  else 2

end BoilerType

/-- Source `engine.rs`: the `Engine` struct.  The `fuel`, `drive` and `factor`
fields are read only by operations that are not modelled here
(`d_engine`, report output) and are omitted. -/
structure Engine where
  year : ℕ
  boiler : BoilerType
  vmax : ℝ
  vcruise : ℝ
  range : ℕ
  /-- private `shafts: u32`. -/
  shaftsField : ℕ
  pct_coal : ℝ

namespace Engine

/-- Source `Engine::RANGE`: the constant the stored range is scaled by in
`bunker()`. -/
def RANGE : ℝ := 7000.0

/-- Source `engine.rs`: `Engine::hp(v, d, lwl, leff, cs, ws)` — horsepower needed
for speed `v`: a piecewise blend of `lwl` and `leff`, a zero-length guard,
the resistance polynomial, and a pre-1890 penalty. -/
def hp (e : Engine) (v d lwl leff cs ws : ℝ) : ℝ :=
  let len_hp :=
    if v ≤ 15 then lwl - (leff - lwl)
    else if 25 ≤ v then leff
    else (leff - lwl) * ((v - 20) / 5) + lwl
  if len_hp = 0 then 0
  else
    let hp :=
      (d ^ ((2 : ℝ) / 3) / len_hp * cs * v ^ (4 : ℝ) + 0.01 * ws * v ^ (1.83 : ℝ)) *
        v / 184.1666667
    hp * (if e.year < 1890 then 1 + ((1890 - e.year : ℕ) : ℝ) / 100 else 1)

/-- Source `engine.rs`: `Engine::hp_max` — horsepower at maximum speed. -/
def hp_max (e : Engine) (d lwl leff cs ws : ℝ) : ℝ :=
  e.hp e.vmax d lwl leff cs ws

/-- Source `engine.rs`: `Engine::hp_cruise` — horsepower at cruising speed,
where the speed used is `self.vcruise.min(self.vmax)`. -/
def hp_cruise (e : Engine) (d lwl leff cs ws : ℝ) : ℝ :=
  e.hp (min e.vcruise e.vmax) d lwl leff cs ws

/-- Source `engine.rs`: `Engine::bunker` — bunkerage weight, with the
`vcruise == 0.0` divide-by-zero guard returning 0.0. -/
def bunker (e : Engine) (d lwl leff cs ws : ℝ) : ℝ :=
  if e.vcruise = 0 then 0
  else
    let bunker1 := (e.range : ℝ) / (1 + 0.4 * (1 - e.pct_coal))
    let bunker2 := bunker1 / e.boiler.bunker_factor e.year
    bunker2 / (1.8 / e.hp_cruise d lwl leff cs ws * RANGE * e.vcruise * 0.1) +
      d * 0.005

end Engine

/-- Source `armor.rs`: `BeltType` — which belt a `Belt` value represents. -/
inductive BeltType where
  | Main
  | End
  | Upper
  | Bulge
  | Bulkhead
  deriving DecidableEq

/-- Source `armor.rs`: the `Belt` struct.  The private Rust field `kind` is set
once by `Belt::new` and never changed. -/
structure Belt where
  thick : ℝ
  len : ℝ
  hgt : ℝ
  kind : BeltType

/-- Source `Armor::INCH`: weight per inch factor used in armor weights. -/
def Armor.INCH : ℝ := 0.0185

namespace Belt

/-- Source `armor.rs`: `Belt::new(kind)` — zeroed belt of the given kind. -/
def new (kind : BeltType) : Belt :=
  { thick := 0, len := 0, hgt := 0, kind := kind }

/-- Source `armor.rs`: `Belt::wgt(lwl, cwp, b)` — belt weight; only `Main` and
`Upper` belts get the bow/stern taper term `extra`. -/
def wgt (belt : Belt) (lwl cwp b : ℝ) : ℝ :=
  let extra :=
    match belt.kind with
    | .Main | .Upper => (1 - belt.len / lwl) ^ ((1 : ℝ) - cwp) * b
    | _ => 0
  (belt.len + extra) * belt.hgt * belt.thick * Armor.INCH * 2

end Belt

/-- Source `armor.rs`: the `Armor` struct.  The `bh_kind`, `deck`, `ct_fwd` and
`ct_aft` fields are read only by operations not modelled here
(`Armor::wgt`, report output) and are omitted. -/
structure Armor where
  units : Units
  main : Belt
  «end» : Belt
  upper : Belt
  incline : ℝ
  bulge : Belt
  bulkhead : Belt
  bh_beam : ℝ

namespace Armor

/-- Source `armor.rs`: `Armor::belt_coverage(lwl)`. -/
def belt_coverage (a : Armor) (lwl : ℝ) : ℝ :=
  a.main.len / (lwl * 0.65)

/-- Source `armor.rs`: `Armor::max_belt_hgt(t, dist)` — the source converts the
incline to radians, then computes `(t + dist) * (1.0 / radians.abs().cos())
+ 0.02`: the absolute value is taken of the *angle*, not of its cosine. -/
def max_belt_hgt (a : Armor) (t dist : ℝ) : ℝ :=
  let radians := a.incline * Real.pi / 180
  (t + dist) * (1 / Real.cos |radians|) + 0.02

end Armor

/-- Source `lib.rs`: `Ship::POUND2TON` — pounds in a long ton. -/
def Ship.POUND2TON : ℝ := 2240.0

/-- Source `lib.rs`: `Ship::year_adj(year)` — year adjustment factor. -/
def Ship.year_adj (year : ℕ) : ℝ :=
  if year ≤ 1890 then 1 - ((1890 - year : ℕ) : ℝ) / 66.666664
  else if year ≤ 1950 then 1
  else 0

/-- Source `weapons.rs`: `GunType` — type of gun. -/
inductive GunType where
  | MuzzleLoading
  | BreechLoading
  | QuickFiring
  | AntiAir
  | DualPurpose
  | RapidFire
  | MachineGun
  deriving DecidableEq

namespace GunType

/-- Source `weapons.rs`: `GunType::wgt_sm` — mount-weight multiplier for small
mounts. -/
def wgt_sm : GunType → ℝ
  | .MuzzleLoading => 0.9
  | .BreechLoading => 1.0
  | .QuickFiring => 1.35
  | .AntiAir => 1.44
  | .DualPurpose => 1.57
  | .RapidFire => 2.16
  | .MachineGun => 1.0

/-- Source `weapons.rs`: `GunType::wgt_lg` — mount-weight multiplier for large
mounts. -/
def wgt_lg : GunType → ℝ
  | .MuzzleLoading => 0.98
  | .BreechLoading => 1.0
  | .QuickFiring => 1.0
  | .AntiAir => 1.0
  | .DualPurpose => 1.1
  | .RapidFire => 1.5
  | .MachineGun => 1.0

end GunType

/-- Source `weapons.rs`: `MountType` — type of gun mount. -/
inductive MountType where
  | Broadside
  | ColesTurret
  | OpenBarbette
  | ClosedBarbette
  | DeckAndHoist
  | Deck
  | Casemate
  deriving DecidableEq

namespace MountType

/-- Source `weapons.rs`: `MountType::wgt` — weight multiplier of the mount. -/
def wgt : MountType → ℝ
  | .Broadside => 0.83
  | .ColesTurret => 3.5
  | .OpenBarbette => 3.33
  | .ClosedBarbette => 3.5
  | .DeckAndHoist => 3.15
  | .Deck => 1.08
  | .Casemate => 1.08

/-- Source `weapons.rs`: `MountType::wgt_adj` — weight-adjustment multiplier. -/
def wgt_adj : MountType → ℝ
  | .Broadside => 0.5
  | .ColesTurret => 1.0
  | .OpenBarbette => 0.7
  | .ClosedBarbette => 1.0
  | .DeckAndHoist => 1.0
  | .Deck => 0.5
  | .Casemate => 0.5

end MountType

/-- Source `weapons.rs`: `GunLayoutType` — layout of guns within a mount. -/
inductive GunLayoutType where
  | Single
  | Twin2Row
  | Quad4Row
  | Twin
  | TwoGun
  | Quad2Row
  | Triple
  | ThreeGun
  | Sex2Row
  | Quad
  | FourGun
  | Oct2Row
  | Quint
  | FiveGun
  | Dec2Row
  deriving DecidableEq

/-- Source `weapons.rs`: `GunLayoutType::wgt_adj` — per-mount weight adjustment
used by `SubBattery::wgt_adj`. -/
def GunLayoutType.wgt_adj : GunLayoutType → ℝ
  | .Single => 1.0
  | .Twin2Row => 1.0
  | .Quad4Row => 1.0
  | .Twin => 0.75
  | .TwoGun => 1.0
  | .Quad2Row => 1.0
  | .Triple => 0.75
  | .ThreeGun => 1.0
  | .Sex2Row => 1.0
  | .Quad => 0.75
  | .FourGun => 1.0
  | .Oct2Row => 1.0
  | .Quint => 0.75
  | .FiveGun => 1.0
  | .Dec2Row => 1.0

/-- Source `weapons.rs`: the `SubBattery` struct.  The `distribution` field is
read only by `SubBattery::free`, which is not modelled here, and is
omitted. -/
structure SubBattery where
  layout : GunLayoutType
  above : ℕ
  «on» : ℕ
  below : ℕ
  two_mounts_up : Bool
  lower_deck : Bool

namespace SubBattery

/-- Source `weapons.rs`: `SubBattery::num_mounts` — total number of mounts. -/
def num_mounts (s : SubBattery) : ℕ := s.above + s.«on» + s.below

/-- Source `weapons.rs`: `SubBattery::wgt_adj` — layout factor times mounts. -/
def wgt_adj (s : SubBattery) : ℝ :=
  s.layout.wgt_adj * (s.num_mounts : ℝ)

end SubBattery

/-- Source `weapons.rs`: the `Battery` struct.  The `units`, `armor_face`,
`armor_back` and `armor_barb` fields are read only by the armor-weight
operations, which are not modelled here, and are omitted. -/
structure Battery where
  num : ℕ
  diam : ℝ
  len : ℝ
  year : ℕ
  shells : ℕ
  /-- private `shell_wgt: Option<f64>`. -/
  shell_wgtOpt : Option ℝ
  kind : GunType
  mount_num : ℕ
  mount_kind : MountType
  groups : List SubBattery

namespace Battery

/-- Source `Battery::CORDITE_FACTOR` — powder allowance in magazine weight. -/
def CORDITE_FACTOR : ℝ := 0.2444444

/-- Source `weapons.rs`: `Battery::date_factor` — `Ship::year_adj(year).sqrt()`. -/
def date_factor (bt : Battery) : ℝ :=
  Real.sqrt (Ship.year_adj bt.year)

/-- Source `weapons.rs`: `Battery::shell_wgt_est` — estimated shell weight from
caliber, barrel length and year. -/
def shell_wgt_est (bt : Battery) : ℝ :=
  bt.diam ^ (3 : ℝ) / 1.9830943211886 * bt.date_factor *
    (1 + (if bt.len < 45 then -1 else 1) * Real.sqrt |45 - bt.len| / 45)

/-- Source `weapons.rs`: `Battery::shell_wgt` — the stored shell weight or the
estimate. -/
def shell_wgt (bt : Battery) : ℝ :=
  match bt.shell_wgtOpt with
  | some wgt => wgt
  | none => bt.shell_wgt_est

/-- Source `weapons.rs`: `Battery::gun_wgt` — weight of all barrels, with the
`diam == 0.0` guard returning 0.0. -/
def gun_wgt (bt : Battery) : ℝ :=
  if bt.diam = 0 then 0
  else
    bt.shell_wgt_est *
      (bt.len / 812.289434917877 * (1 + (1 / bt.diam) ^ (2.3297949327695 : ℝ))) *
      (bt.num : ℝ)

/-- Source `weapons.rs`: `Battery::wgt_adj` — average of the group adjustments,
with the `mount_num == 0` guard returning 0.0. -/
def wgt_adj (bt : Battery) : ℝ :=
  if bt.mount_num = 0 then 0
  else (bt.groups.map SubBattery.wgt_adj).sum / (bt.mount_num : ℝ)

/-- Source `weapons.rs`: `Battery::mount_wgt` — weight of a gun mount: 0.0 for
zero caliber; the mount-type weight times a small/large gun factor plus a
caliber-inverse term, times `gun_wgt()`; the `> 10.0` caliber branch
scales that by an empirical correction while the `<= 1.0` branch replaces
it with `gun_wgt()`; and the whole is multiplied by `wgt_adj()`. -/
def mount_wgt (bt : Battery) : ℝ :=
  if bt.diam = 0 then 0
  else
    let wgt := bt.mount_kind.wgt *
      (if bt.mount_kind.wgt_adj < 0.6 then bt.kind.wgt_sm else bt.kind.wgt_lg)
    let wgt := (wgt + 1 / bt.diam ^ (0.313068808543972 : ℝ)) * bt.gun_wgt
    let wgt :=
      if 10 < bt.diam then wgt * (1 - 2.1623769 * bt.diam / 100)
      else if bt.diam ≤ 1 then bt.gun_wgt
      else wgt
    wgt * bt.wgt_adj

/-- Source `weapons.rs`: `Battery::mag_wgt` — magazine weight. -/
def mag_wgt (bt : Battery) : ℝ :=
  ((bt.num * bt.shells : ℕ) : ℝ) * bt.shell_wgt / Ship.POUND2TON *
    (1 + CORDITE_FACTOR)

end Battery

/-- Source `lib.rs`: the `Ship` struct, restricted to the fields read by the
displacement-variant operations modelled here (`wgt_bunker`, `wgt_mag`,
`wgt_load`, `d_lite`, `d_std`, `d_max`); the armor, torpedo, year, crew
and miscellaneous-weight fields are not read by them and are omitted. -/
structure Ship where
  hull : Hull
  engine : Engine
  batteries : List Battery

namespace Ship

/-- Source `lib.rs`: `Ship::wgt_bunker` — the engine's bunkerage, evaluated at
the hull's displacement, lengths, sharpness and wetted surface. -/
def wgt_bunker (s : Ship) : ℝ :=
  s.engine.bunker s.hull.d s.hull.lwl s.hull.leff s.hull.cs s.hull.ws

/-- Source `lib.rs`: `Ship::wgt_mag` — sum of the batteries' magazine weights. -/
def wgt_mag (s : Ship) : ℝ :=
  (s.batteries.map Battery.mag_wgt).sum

/-- Source `lib.rs`: `Ship::wgt_load` — bunkerage, magazine and stores. -/
def wgt_load (s : Ship) : ℝ :=
  s.hull.d * 0.02 + s.wgt_bunker + s.wgt_mag

/-- Source `lib.rs`: `Ship::d_lite` — light displacement. -/
def d_lite (s : Ship) : ℝ :=
  s.hull.d - s.wgt_load

/-- Source `lib.rs`: `Ship::d_std` — standard (treaty) displacement. -/
def d_std (s : Ship) : ℝ :=
  s.hull.d - s.wgt_bunker

/-- Source `lib.rs`: `Ship::d_max` — maximum displacement. -/
def d_max (s : Ship) : ℝ :=
  s.hull.d + 0.8 * s.wgt_bunker

/-- Source `lib.rs`: `Ship::str_comp` — composite hull strength, combining the
already computed cross-sectional and longitudinal strengths
(`str_cross()` and `str_long()`, taken here as the two arguments). -/
def str_comp (str_cross str_long : ℝ) : ℝ :=
  if str_long < str_cross then str_long * (str_cross / str_long) ^ (0.25 : ℝ)
  else str_cross * (str_long / str_cross) ^ (0.1 : ℝ)

end Ship

/-! Concrete inputs used by witnesses and counterexamples. -/

/-- Concrete ship for the displacement-ordering witness: a hull with a
stored displacement, an engine with zero cruising speed (so bunkerage is
0) and no batteries. -/
def shipC1 : Ship where
  hull := { Hull.default with dOpt := some 1000, lwlOpt := some 400, bb := 50, t := 20 }
  engine :=
    { year := 1920, boiler := ⟨false, false, true⟩, vmax := 20, vcruise := 0,
      range := 5000, shaftsField := 2, pct_coal := 1 }
  batteries := []

/-- Concrete hull with zero draft, for the `ws` guard witness. -/
def hullWs0 : Hull :=
  { Hull.default with dOpt := some 100, lwlOpt := some 50 }

/-- Concrete engine with zero cruising speed, for the `bunker` guard
witness. -/
def engineC3 : Engine where
  year := 1905
  boiler := ⟨true, false, false⟩
  vmax := 18
  vcruise := 0
  range := 4000
  shaftsField := 2
  pct_coal := 1

/-- Concrete hull for the `leff` counterexample: a Cruiser stern, a set
waterline length of 100 and a zero bulge beam, so that the sharpness
coefficient is 0 while `lwl()` is not. -/
def hullC5 : Hull :=
  { Hull.default with cbOpt := some 0.55, lwlOpt := some 100, bb := 0, t := 1 }

/-- Concrete hull with nonzero sharpness coefficient (`cs = 0.4`) and a
Cruiser stern. -/
def hullC5b : Hull :=
  { Hull.default with cbOpt := some 0.52, lwlOpt := some 60, bb := 10, t := 1 }

/-- Concrete armor inclined 180 degrees, whose incline has cosine `-1`. -/
def armorC6 : Armor where
  units := .Imperial
  main := Belt.new .Main
  «end» := Belt.new .End
  upper := Belt.new .Upper
  incline := 180
  bulge := Belt.new .Bulge
  bulkhead := Belt.new .Bulkhead
  bh_beam := 0

/-- Concrete 1-inch battery whose single group uses a `Twin` layout, so
that `wgt_adj()` is `0.75` rather than `1`. -/
def btC7 : Battery where
  num := 1
  diam := 1
  len := 45
  year := 1920
  shells := 0
  shell_wgtOpt := none
  kind := .BreechLoading
  mount_num := 1
  mount_kind := .ColesTurret
  groups :=
    [{ layout := .Twin, above := 1, «on» := 0, below := 0,
       two_mounts_up := false, lower_deck := false }]

/-- Concrete Main-kind and End-kind belts with the dimensions of the
source's `Belt::wgt` unit tests (`thick=1, len=100, hgt=10`). -/
def beltMainC4 : Belt :=
  { Belt.new .Main with thick := 1, len := 100, hgt := 10 }

/-- End-kind sibling of `beltMainC4`. -/
def beltEndC4 : Belt :=
  { Belt.new .End with thick := 1, len := 100, hgt := 10 }

/-- Concrete engine whose cruising speed exceeds its maximum speed. -/
def engineC9 : Engine where
  year := 1920
  boiler := ⟨false, false, true⟩
  vmax := 10
  vcruise := 20
  range := 0
  shaftsField := 2
  pct_coal := 0

/-- Characterization of `SternType::leff` with the divide-by-zero guard
made explicit, used to reason uniformly about all stern types. -/
theorem SternType.leff_def (s : SternType) (lwl bb cs : ℝ) :
    s.leff lwl bb cs =
      if cs = 0 then 0
      else
        match s with
        | .TransomSm => bb * 0.5 / cs + lwl
        | .TransomLg => bb / cs + lwl
        | _ => lwl := by
  cases s <;> rfl

/-! The claims. -/

/-- C1: for every Ship whose computed bunker weight, hull displacement,
magazine weight and stores term are non-negative, the displacement
variants are ordered `d_lite ≤ d_std ≤ d ≤ d_max`. -/
theorem C1_displacement_variant_ordering (s : Ship)
    (hbunker : 0 ≤ s.wgt_bunker) (hd : 0 ≤ s.hull.d) (hmag : 0 ≤ s.wgt_mag)
    (_hstores : 0 ≤ s.hull.d * 0.02) :
    s.d_lite ≤ s.d_std ∧ s.d_std ≤ s.hull.d ∧ s.hull.d ≤ s.d_max := by
  unfold Ship.d_lite Ship.d_std Ship.d_max Ship.wgt_load
  refine ⟨by linarith, by linarith, by linarith⟩

/-- Witness for C1 at `shipC1`: its bunker weight is 0 (zero cruise
speed), its magazine weight is 0 (no batteries) and its displacement is
1000, so the ordering theorem applies. -/
theorem C1_witness :
    0 ≤ shipC1.wgt_bunker ∧ 0 ≤ shipC1.hull.d ∧ 0 ≤ shipC1.wgt_mag ∧
      (shipC1.d_lite ≤ shipC1.d_std ∧ shipC1.d_std ≤ shipC1.hull.d ∧
        shipC1.hull.d ≤ shipC1.d_max) := by
  have hbunker : shipC1.wgt_bunker = 0 := by
    simp [Ship.wgt_bunker, Engine.bunker, shipC1]
  have hd : shipC1.hull.d = 1000 := rfl
  have hmag : shipC1.wgt_mag = 0 := by simp [Ship.wgt_mag, shipC1]
  refine ⟨by rw [hbunker], by rw [hd]; norm_num, by rw [hmag], ?_⟩
  exact C1_displacement_variant_ordering shipC1 (by rw [hbunker])
    (by rw [hd]; norm_num) (by rw [hmag]) (by rw [hd]; norm_num)

/-- C2: `set_cb`/`set_d` (and `set_lwl`/`set_loa`) are mutually exclusive
with last-write-wins derivation: after `set_cb x` the accessor `cb` gives
`x` and `d` gives the derived `x * lwl * bb * t / 35`; after a subsequent
`set_d y`, `d` gives `y` and `cb` gives the clamp of `y * 35 / (lwl*bb*t)`
(0 on zero denominator); and analogously for the lengths. -/
theorem C2_last_write_wins (h : Hull) (x y : ℝ) :
    (h.set_cb x).cb = x ∧
    (h.set_cb x).d = x * h.lwl * h.bb * h.t / 35 ∧
    ((h.set_cb x).set_d y).d = y ∧
    ((h.set_cb x).set_d y).cb =
      (if h.lwl * h.bb * h.t = 0 then 0
       else max (min (y * 35 / (h.lwl * h.bb * h.t)) 1) 0) ∧
    (h.set_lwl x).lwl = x ∧
    (h.set_lwl x).loa =
      x + max (max h.bow_type.ram_len h.stem_len) 0 + max h.stern_overhang 0 ∧
    ((h.set_lwl x).set_loa y).loa = y ∧
    ((h.set_lwl x).set_loa y).lwl =
      y - max (max h.bow_type.ram_len h.stem_len) 0 - max h.stern_overhang 0 := by
  refine ⟨rfl, ?_, rfl, ?_, rfl, ?_, rfl, ?_⟩
  · show x * h.lwl * h.bb * h.t / Hull.FT3_PER_TON_SEA =
      x * h.lwl * h.bb * h.t / 35
    norm_num [Hull.FT3_PER_TON_SEA]
  · show (if h.lwl * h.bb * h.t = 0 then (0 : ℝ)
        else max (min (y * Hull.FT3_PER_TON_SEA / (h.lwl * h.bb * h.t)) 1) 0) =
      (if h.lwl * h.bb * h.t = 0 then (0 : ℝ)
        else max (min (y * 35 / (h.lwl * h.bb * h.t)) 1) 0)
    norm_num [Hull.FT3_PER_TON_SEA]
  · show x + max (max h.bow_type.ram_len h.stem_len) 0 + max h.stern_overhang 0 =
      x + max (max h.bow_type.ram_len h.stem_len) 0 + max h.stern_overhang 0
    rfl
  · show y - max (max h.bow_type.ram_len h.stem_len) 0 - max h.stern_overhang 0 =
      y - max (max h.bow_type.ram_len h.stem_len) 0 - max h.stern_overhang 0
    rfl

/-- C3: the documented divide-by-zero guards each return the literal
sentinel `0.0`: `Hull::ws` with zero draft, `Hull::cs` with zero
waterline length, and `Engine::bunker` with zero cruising speed. -/
theorem C3_division_guard_sentinels :
    (∀ h : Hull, h.t = 0 → h.ws = 0) ∧
    (∀ h : Hull, h.lwl = 0 → h.cs = 0) ∧
    (∀ (e : Engine) (d lwl leff cs ws : ℝ),
      e.vcruise = 0 → e.bunker d lwl leff cs ws = 0) := by
  refine ⟨fun h ht => ?_, fun h hl => ?_, fun e d lwl leff cs ws hv => ?_⟩
  · rw [Hull.ws, if_pos ht]
  · rw [Hull.cs, if_pos hl]
  · rw [Engine.bunker, if_pos hv]

/-- Witness for C3 at concrete inputs: a zero-draft hull, the default
hull (no stored length, so `lwl() = 0`), and an engine with zero cruising
speed. -/
theorem C3_witness :
    hullWs0.t = 0 ∧ hullWs0.ws = 0 ∧
    Hull.default.lwl = 0 ∧ Hull.default.cs = 0 ∧
    engineC3.vcruise = 0 ∧ engineC3.bunker 1 2 3 4 5 = 0 :=
  ⟨rfl, C3_division_guard_sentinels.1 hullWs0 rfl,
   rfl, C3_division_guard_sentinels.2.1 Hull.default rfl,
   rfl, C3_division_guard_sentinels.2.2 engineC3 1 2 3 4 5 rfl⟩

/-- C4: `Belt::wgt` applies the taper term `(1 - len/lwl)^(1-cwp) * b`
exactly for Main/Upper belts and 0 otherwise; with the test dimensions a
Main belt weighs about 40.31 and an End belt exactly 37. -/
theorem C4_belt_kind_gated_weight :
    (∀ (belt : Belt) (lwl cwp b : ℝ),
      belt.wgt lwl cwp b =
        (belt.len +
          (if belt.kind = .Main ∨ belt.kind = .Upper
           then (1 - belt.len / lwl) ^ ((1 : ℝ) - cwp) * b else 0)) *
          belt.hgt * belt.thick * 0.0185 * 2) ∧
    |beltMainC4.wgt 500 0.5 10 - 40.31| < 0.01 ∧
    beltEndC4.wgt 500 0.5 10 = 37 := by
  refine ⟨fun belt lwl cwp b => ?_, ?_, ?_⟩
  · rcases belt with ⟨thick, len, hgt, kind⟩
    cases kind <;> simp [Belt.wgt, Armor.INCH]
  · have hsq : ((1 : ℝ) - 100 / 500) ^ ((1 : ℝ) - 0.5) = Real.sqrt 0.8 := by
      rw [show ((1 : ℝ) - 0.5) = 1 / 2 by norm_num,
        show ((1 : ℝ) - 100 / 500) = 0.8 by norm_num, ← Real.sqrt_eq_rpow]
    have h1 : beltMainC4.wgt 500 0.5 10 =
        (100 + Real.sqrt 0.8 * 10) * 10 * 1 * 0.0185 * 2 := by
      show (100 + ((1 : ℝ) - 100 / 500) ^ ((1 : ℝ) - 0.5) * 10) * 10 * 1 *
          Armor.INCH * 2 = _
      rw [hsq]
      norm_num [Armor.INCH]
    have hlo : (0.894 : ℝ) < Real.sqrt 0.8 :=
      (Real.lt_sqrt (by norm_num)).2 (by norm_num)
    have hhi : Real.sqrt 0.8 < 0.895 :=
      (Real.sqrt_lt' (by norm_num)).2 (by norm_num)
    rw [h1, abs_lt]
    constructor <;> nlinarith
  · show (100 + (0 : ℝ)) * 10 * 1 * Armor.INCH * 2 = 37
    norm_num [Armor.INCH]

/-- C5 counterexample: a Cruiser-stern hull with `lwl() = 100` but zero
bulge beam has sharpness coefficient 0, and `leff()` then returns the
divide-by-zero sentinel 0.0, not `lwl()` — refuting the claim that
non-transom sterns return `lwl` unchanged for all field values. -/
theorem C5_counterexample :
    hullC5.stern_type = SternType.Cruiser ∧ hullC5.leff ≠ hullC5.lwl := by
  have hlwl : hullC5.lwl = 100 := rfl
  have hcs : hullC5.cs = 0 := by
    rw [Hull.cs, if_neg (by rw [hlwl]; norm_num)]
    have hzero : hullC5.bb / hullC5.lwl * 6 = 0 := by
      norm_num [hullC5, Hull.lwl]
    rw [hzero, Real.zero_rpow (by norm_num)]
    ring
  have hleff : hullC5.leff = 0 := by
    rw [Hull.leff, SternType.leff_def, if_pos hcs]
  refine ⟨rfl, ?_⟩
  rw [hleff, hlwl]
  norm_num

/-- C5 (amended): `leff()` returns the sentinel 0.0 whenever `cs() = 0`
(for every stern type); when `cs() ≠ 0`, Cruiser and Round sterns return
`lwl()` unchanged while the transom sterns add their beam/sharpness
bonus. -/
theorem C5_leff_amended (h : Hull) :
    (h.cs = 0 → h.leff = 0) ∧
    (h.cs ≠ 0 →
      ((h.stern_type = .Cruiser ∨ h.stern_type = .Round) → h.leff = h.lwl) ∧
      (h.stern_type = .TransomSm → h.leff = h.bb * 0.5 / h.cs + h.lwl) ∧
      (h.stern_type = .TransomLg → h.leff = h.bb / h.cs + h.lwl)) := by
  constructor
  · intro hcs
    rw [Hull.leff, SternType.leff_def, if_pos hcs]
  · intro hcs
    refine ⟨fun hstern => ?_, fun hstern => ?_, fun hstern => ?_⟩
    · rcases hstern with hstern | hstern <;>
        rw [Hull.leff, hstern, SternType.leff_def, if_neg hcs]
    · rw [Hull.leff, hstern, SternType.leff_def, if_neg hcs]
    · rw [Hull.leff, hstern, SternType.leff_def, if_neg hcs]

/-- Witness for C5 at concrete hulls: `hullC5` has `cs = 0` and `leff`
collapses to 0; `hullC5b` has `cs = 0.4 ≠ 0` and its Cruiser stern
returns `lwl` unchanged. -/
theorem C5_witness :
    hullC5.cs = 0 ∧ hullC5.leff = 0 ∧
    hullC5b.cs ≠ 0 ∧ hullC5b.leff = hullC5b.lwl := by
  have hcs : hullC5.cs = 0 := by
    rw [Hull.cs, if_neg (show ¬hullC5.lwl = 0 by rw [show hullC5.lwl = 100 from rfl]; norm_num)]
    have : hullC5.bb / hullC5.lwl * 6 = 0 := by
      norm_num [hullC5, Hull.lwl]
    rw [this, Real.zero_rpow (by norm_num)]
    ring
  have hcsb : hullC5b.cs = 0.4 := by
    rw [Hull.cs, if_neg (show ¬hullC5b.lwl = 0 by rw [show hullC5b.lwl = 60 from rfl]; norm_num)]
    have h6 : hullC5b.bb / hullC5b.lwl * 6 = 1 := by
      norm_num [hullC5b, Hull.lwl]
    have hcb : hullC5b.cb / 0.52 = 1 := by
      norm_num [hullC5b, Hull.cb, Hull.cb_calc]
    rw [h6, hcb, Real.one_rpow, Real.sqrt_one]
    norm_num
  refine ⟨hcs, (C5_leff_amended hullC5).1 hcs, by rw [hcsb]; norm_num, ?_⟩
  exact ((C5_leff_amended hullC5b).2 (by rw [hcsb]; norm_num)).1 (Or.inl rfl)

/-- C6 counterexample: at incline 180° the code divides by
`cos(|radians|) = cos(180°) = -1`, producing a negative height, while the
claimed formula `(t+dist)/|cos(radians)| + 0.02` is positive — the source
takes the absolute value of the angle, not of the cosine. -/
theorem C6_counterexample :
    armorC6.max_belt_hgt 1 0 ≠
      (1 + 0) / |Real.cos (armorC6.incline * Real.pi / 180)| + 0.02 := by
  have hrad : armorC6.incline * Real.pi / 180 = Real.pi := by
    rw [show armorC6.incline = 180 from rfl]; ring
  have habs : |Real.pi| = Real.pi := abs_of_nonneg Real.pi_pos.le
  rw [Armor.max_belt_hgt, hrad, habs, Real.cos_pi]
  norm_num

/-- C6 (amended): `max_belt_hgt(t, dist)` equals
`(t+dist) / cos(incline_radians) + 0.02` — since cosine is even, taking
the absolute value of the angle (as the source does) changes nothing, but
nothing rectifies a negative cosine. -/
theorem C6_max_belt_hgt_amended (a : Armor) (t dist : ℝ) :
    a.max_belt_hgt t dist =
      (t + dist) / Real.cos (a.incline * Real.pi / 180) + 0.02 := by
  rw [Armor.max_belt_hgt, Real.cos_abs, mul_one_div]

/-- C7 (amended): `mount_wgt()` is 0 at zero caliber; for calibers in
`(0, 1]` it bypasses the mount-type weight and returns
`gun_wgt() * wgt_adj()` (the final layout adjustment still applies, so it
is not the bare `gun_wgt()`); for calibers above 10 inches the mount-type
weight is scaled by the empirical correction `1 - 2.1623769*diam/100`. -/
theorem C7_mount_wgt_amended (bt : Battery) :
    (bt.diam = 0 → bt.mount_wgt = 0) ∧
    (0 < bt.diam → bt.diam ≤ 1 → bt.mount_wgt = bt.gun_wgt * bt.wgt_adj) ∧
    (10 < bt.diam →
      bt.mount_wgt =
        (bt.mount_kind.wgt *
            (if bt.mount_kind.wgt_adj < 0.6 then bt.kind.wgt_sm else bt.kind.wgt_lg) +
            1 / bt.diam ^ (0.313068808543972 : ℝ)) * bt.gun_wgt *
          (1 - 2.1623769 * bt.diam / 100) * bt.wgt_adj) := by
  refine ⟨fun h0 => ?_, fun hpos hle => ?_, fun hgt => ?_⟩
  · rw [Battery.mount_wgt, if_pos h0]
  · rw [Battery.mount_wgt, if_neg (by positivity)]
    simp only [if_neg (show ¬(10 : ℝ) < bt.diam by linarith), if_pos hle]
  · rw [Battery.mount_wgt, if_neg (by positivity)]
    simp only [if_pos hgt]

/-- C7 counterexample: `btC7` has caliber 1 (in `(0, 1]`) but a `Twin`
layout, so `wgt_adj() = 0.75` and `mount_wgt() = 0.75 * gun_wgt()`,
refuting "falls back to bare `gun_wgt()`". -/
theorem C7_counterexample :
    0 < btC7.diam ∧ btC7.diam ≤ 1 ∧ btC7.mount_wgt ≠ btC7.gun_wgt := by
  have hadj : btC7.wgt_adj = 0.75 := by
    norm_num [Battery.wgt_adj, btC7, SubBattery.wgt_adj, SubBattery.num_mounts,
      GunLayoutType.wgt_adj]
  have hgun : btC7.gun_wgt = 1 / 1.9830943211886 * (45 / 812.289434917877 * 2) := by
    rw [Battery.gun_wgt, if_neg (by norm_num [btC7])]
    have hest : btC7.shell_wgt_est = 1 / 1.9830943211886 := by
      rw [Battery.shell_wgt_est]
      norm_num [btC7, Battery.date_factor, Ship.year_adj, Real.sqrt_one, Real.one_rpow]
    rw [hest]
    norm_num [btC7, Real.one_rpow]
  have hmw : btC7.mount_wgt = btC7.gun_wgt * btC7.wgt_adj := by
    rw [Battery.mount_wgt, if_neg (show ¬btC7.diam = 0 by norm_num [btC7])]
    simp only [if_neg (show ¬(10 : ℝ) < btC7.diam by norm_num [btC7]),
      if_pos (show btC7.diam ≤ 1 by norm_num [btC7])]
  refine ⟨by norm_num [btC7], by norm_num [btC7], ?_⟩
  rw [hmw, hadj, hgun]
  norm_num

/-- Witness for C7 at `btC7` (caliber 1): the `(0, 1]` branch applies. -/
theorem C7_witness :
    0 < btC7.diam ∧ btC7.diam ≤ 1 ∧
      btC7.mount_wgt = btC7.gun_wgt * btC7.wgt_adj :=
  ⟨by norm_num [btC7], by norm_num [btC7],
    (C7_mount_wgt_amended btC7).2.1 (by norm_num [btC7]) (by norm_num [btC7])⟩

/-- C8: the composite strength combines the cross-sectional and
longitudinal strengths asymmetrically: exponent 0.25 on the ratio when
cross exceeds long, exponent 0.1 the other way. -/
theorem C8_str_comp_asymmetry (str_cross str_long : ℝ) :
    (str_long < str_cross →
      Ship.str_comp str_cross str_long =
        str_long * (str_cross / str_long) ^ (0.25 : ℝ)) ∧
    (¬str_long < str_cross →
      Ship.str_comp str_cross str_long =
        str_cross * (str_long / str_cross) ^ (0.1 : ℝ)) := by
  constructor
  · intro hlt
    rw [Ship.str_comp, if_pos hlt]
  · intro hge
    rw [Ship.str_comp, if_neg hge]

/-- Witness for C8 at concrete strengths 2 and 1, in both orders. -/
theorem C8_witness :
    ((1 : ℝ) < 2 → Ship.str_comp 2 1 = 1 * ((2 : ℝ) / 1) ^ (0.25 : ℝ)) ∧
    Ship.str_comp 1 2 = 1 * ((2 : ℝ) / 1) ^ (0.1 : ℝ) :=
  ⟨fun h => (C8_str_comp_asymmetry 2 1).1 h,
    (C8_str_comp_asymmetry 1 2).2 (by norm_num)⟩

/-- C9: `hp_cruise` evaluates the power curve at `min(vcruise, vmax)`; in
particular whenever `vcruise ≥ vmax` it coincides exactly with
`hp_max`. -/
theorem C9_cruise_power_capped (e : Engine) (d lwl leff cs ws : ℝ) :
    e.hp_cruise d lwl leff cs ws = e.hp (min e.vcruise e.vmax) d lwl leff cs ws ∧
    (e.vmax ≤ e.vcruise →
      e.hp_cruise d lwl leff cs ws = e.hp_max d lwl leff cs ws) := by
  refine ⟨rfl, fun hv => ?_⟩
  rw [Engine.hp_cruise, Engine.hp_max, min_eq_right hv]

/-- Witness for C9 at `engineC9` (`vcruise = 20 ≥ vmax = 10`). -/
theorem C9_witness :
    engineC9.vmax ≤ engineC9.vcruise ∧
      engineC9.hp_cruise 1 2 3 4 5 = engineC9.hp_max 1 2 3 4 5 :=
  ⟨by norm_num [engineC9],
    (C9_cruise_power_capped engineC9 1 2 3 4 5).2 (by norm_num [engineC9])⟩

/-- C10: when neither length field is stored (as after `Hull::default()`),
both `lwl()` and `loa()` return exactly 0.0 rather than deriving a
value. -/
theorem C10_unset_lengths_zero (h : Hull)
    (hlwl : h.lwlOpt = none) (hloa : h.loaOpt = none) :
    h.lwl = 0 ∧ h.loa = 0 := by
  rw [Hull.lwl, Hull.loa, hlwl, hloa]
  exact ⟨rfl, rfl⟩

/-- Witness for C10 at `Hull::default()`. -/
theorem C10_witness :
    Hull.default.lwlOpt = none ∧ Hull.default.loaOpt = none ∧
      Hull.default.lwl = 0 ∧ Hull.default.loa = 0 :=
  ⟨rfl, rfl, (C10_unset_lengths_zero Hull.default rfl rfl).1,
    (C10_unset_lengths_zero Hull.default rfl rfl).2⟩

end Sharpie
